import Mathlib

/-!
Verification of the tmdb-rename media renamer (`src/tmdb-rename.py`) against its
natural-language specification.  The Python source is shallowly embedded:

* pure helpers (`_sanitize`, `_detect_type`, `_is_collection`, the ranking and
  de-duplication logic of `_search_tmdb`, `_manual_lookup`, the canonical-name
  regex of `scan_folder`) become executable Lean functions over `String` /
  `List Char` / `Nat` / `ℚ`;
* the filesystem is modelled as a finite set of paths, `os.rename` as a checked
  move of one path, and the transaction's step log (`MediaRenamer._ops`,
  `_do_rename`, `_rollback`) as list-structured state;
* network collaborators (the TMDb HTTP endpoints) are modelled as oracle
  functions supplied as parameters, and the HTTP retry loop of `_tmdb_request`
  consumes an explicit finite script of responses.

Floating-point popularity scores are modelled as `ℚ`: the Python code only ever
negates and compares them, and both operations are exact on floats, so the order
structure is preserved.
-/

namespace TmdbRename

/-! ## Python-style helpers -/

/-- Truthiness of an optional string, as Python evaluates `if title:` for a
value of type `str | None`: `None` and the empty string are falsy. -/
def strTruthy : Option String → Bool
  | none => false
  | some s => s ≠ ""

/-- The whitespace class of Python's `re` module / `str.isspace` for `str`
patterns (ASCII whitespace, the C0 separators, and the Unicode space
characters).  Used by `\s` in the source's regexes. -/
def pyWs (c : Char) : Bool :=
  c.val = 32 || c.val = 9 || c.val = 10 || c.val = 11 || c.val = 12 || c.val = 13 ||
  c.val = 0x1c || c.val = 0x1d || c.val = 0x1e || c.val = 0x1f || c.val = 0x85 ||
  c.val = 0xa0 || c.val = 0x1680 || (0x2000 ≤ c.val && c.val ≤ 0x200a) ||
  c.val = 0x2028 || c.val = 0x2029 || c.val = 0x202f || c.val = 0x205f || c.val = 0x3000

/-- Python `str.isdigit` restricted to the ASCII digits that the source ever
feeds to `int(...)`: a nonempty all-digit string. -/
def pyIsDigit (s : String) : Bool :=
  s ≠ "" && s.data.all Char.isDigit

/-! ## Data model (`MediaType`, `MatchStatus`, dataclasses of the source) -/

/-- `MediaType` enum of the source. -/
inductive MediaType where
  | MOVIE
  | SERIES
  | COLLECTION
  | UNKNOWN
deriving DecidableEq

/-- `MatchStatus` enum of the source (the icon payloads are irrelevant to the
claims and dropped). -/
inductive MatchStatus where
  | AUTO
  | UNSURE
  | MANUAL
  | NONE
  | SKIP
  | DONE
  | RENAMED
deriving DecidableEq

/-- `EpisodeInfo` dataclass. -/
structure EpisodeInfo where
  season : Nat
  episode : Nat
deriving DecidableEq

/-- `VideoFile` dataclass; `Path` values become plain strings, `size_bytes`
is a `Nat`. -/
structure VideoFile where
  path : String
  size_bytes : Nat
  media_type : MediaType := .UNKNOWN
  episode_info : Option EpisodeInfo := none
  extracted_title : Option String := none
  extracted_year : Option String := none
  parent_folder : Option String := none
deriving DecidableEq

/-- `MediaMatch` dataclass.  `popularity` is a float in the source; it is only
negated and compared, so `ℚ` is an order-faithful model. -/
structure MediaMatch where
  tmdb_id : Nat
  imdb_id : Option String
  title : String
  original_title : String
  year : String
  media_type : String
  popularity : ℚ := 0
deriving DecidableEq

/-- `CollectionItem` dataclass (per-film identification unit inside a
collection folder).  `video_size` (a float GiB value in the source) is kept as
the underlying byte count. -/
structure CollectionItem where
  folder_path : Option String
  video_path : String
  video_size_bytes : Nat
  extracted_title : Option String
  extracted_year : Option String
  match_list : List MediaMatch
  selected_match : Option MediaMatch := none
  status : MatchStatus := .NONE
deriving DecidableEq

/-- `ScanResult` dataclass (the per-folder outcome record). -/
structure ScanResult where
  folder_name : String
  detected_type : MediaType
  extracted_title : Option String
  extracted_year : Option String
  videos : List VideoFile
  match_list : List MediaMatch
  selected_match : Option MediaMatch := none
  status : MatchStatus := .NONE
  new_name : Option String := none
  error : Option String := none
  collection_items : Option (List CollectionItem) := none
deriving DecidableEq

/-! ## Transactional rename engine (`_rename`, `_do_rename`, `_rollback`)

The filesystem is a finite set of paths.  `os.rename src dst` moves the object
at `src` to `dst`; the renamer's checked `_rename` first verifies that the
source exists, that the destination does not (unless it is the same path), and
that both sides are on one device (a single-device filesystem is modelled, so
that check is identically true).  A `RenameOp` is a step-log entry; an op is
appended before the rename is attempted and marked done after it succeeds, so
the completed prefix of a failed transaction is exactly the list of done ops. -/

/-- `RenameOp` dataclass: one step-log entry (`old`, `new`). -/
structure RenameOp where
  old : String
  new : String
deriving DecidableEq

/-- Effect of `os.rename src dst` on the path set. -/
def fsRename (fs : Finset String) (src dst : String) : Finset String :=
  insert dst (fs.erase src)

/-- Preconditions of `MediaRenamer._rename`: source exists and the destination
does not already exist unless it resolves to the same path.  (The same-device
check is identically true in the single-device model.) -/
def renameOk (fs : Finset String) (src dst : String) : Prop :=
  src ∈ fs ∧ (dst ∉ fs ∨ src = dst)

instance (fs : Finset String) (src dst : String) : Decidable (renameOk fs src dst) :=
  inferInstanceAs (Decidable (src ∈ fs ∧ (dst ∉ fs ∨ src = dst)))

/-- Run a transaction's logged renames in order via the checked `_rename`
(`_do_rename` appends the op and marks it done on success); `none` means some
precondition failed, in which case the ops before it are exactly the completed
(`done`) entries of the step log. -/
def execOps (fs : Finset String) : List RenameOp → Option (Finset String)
  | [] => some fs
  | op :: rest =>
    if renameOk fs op.old op.new then execOps (fsRename fs op.old op.new) rest else none

/-- One step of `MediaRenamer._rollback`: if the renamed-to path still exists,
move it back to its original path; otherwise skip (the source's
`if src.exists()` guard).  A raw-OS failure is reported, not raised, so the
step always yields a filesystem and the fold below attempts every remaining
logged step. -/
def rollbackStep (fs : Finset String) (op : RenameOp) : Finset String :=
  if op.new ∈ fs then fsRename fs op.new op.old else fs

/-- `MediaRenamer._rollback`: replay the completed step log in reverse order. -/
def rollback (fs : Finset String) (doneOps : List RenameOp) : Finset String :=
  doneOps.reverse.foldl rollbackStep fs

theorem rollback_one (fs : Finset String) (s d : String) (hs : s ∈ fs)
    (hd : d ∉ fs ∨ s = d) :
    rollbackStep (fsRename fs s d) ⟨s, d⟩ = fs := by
  have hd' : d ∉ fs.erase s := by
    rcases hd with hd | hd
    · exact fun hm => hd (Finset.mem_of_mem_erase hm)
    · subst hd
      exact Finset.not_mem_erase _ _
  have hmem : d ∈ fsRename fs s d := Finset.mem_insert_self _ _
  simp only [rollbackStep, hmem, if_pos]
  unfold fsRename
  rw [Finset.erase_insert hd', Finset.insert_erase hs]

/-! ## Catalog request retry (`_tmdb_request`) -/

/-- One network outcome for a single HTTP attempt: a parsed JSON payload, an
`HTTPError` with a status code, or any other exception (URL error, timeout,
malformed JSON). -/
inductive HttpResp (α : Type) where
  | success (data : α)
  | httpError (code : Nat)
  | netError
deriving DecidableEq

/-- Outcome of a single response if no retrying happened: data on success,
"no data" on any failure. -/
def respResult {α : Type} : HttpResp α → Option α
  | .success d => some d
  | .httpError _ => none
  | .netError => none

/-- Is a single response the rate-limit signal (HTTP 429)? -/
def isRateLimit {α : Type} : HttpResp α → Bool
  | .httpError c => c = 429
  | _ => false

/-- `MediaRenamer._tmdb_request` on a cache miss, run against a finite script
of responses (one per attempted HTTP request; an exhausted script counts as a
network failure).  Returns the request's result together with the number of
HTTP attempts consumed.  The source sleeps 2 seconds and *recursively calls
itself* on HTTP 429; every other `HTTPError` and every other exception returns
`None`. -/
def tmdb_request {α : Type} : List (HttpResp α) → Option α × Nat
  | [] => (none, 0)
  | .success d :: _ => (some d, 1)
  | .httpError c :: rest =>
    if c = 429 then
      let r := tmdb_request rest
      (r.1, r.2 + 1)
    else (none, 1)
  | .netError :: _ => (none, 1)

/-! ## Theorems for claims C1 and C3 -/

/-- C1: a rename transaction whose step log of completed checked renames is
`ops` (each step passed `_rename`'s preconditions when it ran) is fully undone
by `_rollback`'s reverse replay: the path set after rollback equals the path
set before the transaction began.  The rollback is a total fold over every
completed entry — it never raises and attempts each remaining step. -/
theorem rollback_restores (ops : List RenameOp) :
    ∀ fs fs' : Finset String, execOps fs ops = some fs' → rollback fs' ops = fs := by
  induction ops with
  | nil =>
    intro fs fs' h
    simp only [execOps, Option.some.injEq] at h
    subst h
    rfl
  | cons op rest ih =>
    intro fs fs' h
    simp only [execOps] at h
    by_cases hok : renameOk fs op.old op.new
    · rw [if_pos hok] at h
      have hrest := ih (fsRename fs op.old op.new) fs' h
      show (op :: rest).reverse.foldl rollbackStep fs' = fs
      rw [List.reverse_cons, List.foldl_append]
      simp only [List.foldl_cons, List.foldl_nil]
      have : rest.reverse.foldl rollbackStep fs' = fsRename fs op.old op.new := hrest
      rw [this]
      exact rollback_one fs op.old op.new hok.1 hok.2
    · rw [if_neg hok] at h
      exact absurd h (by simp)

/-- Concrete initial path set for the C1 witness: a folder, the video inside
it, and an unrelated sibling. -/
def txFs0 : Finset String := {"lib/Old", "lib/Old/f.mkv", "lib/other"}

/-- Concrete step log for the C1 witness: the two-hop folder rename followed by
one file rename, exactly the steps `execute_renames` logs. -/
def txOps0 : List RenameOp :=
  [⟨"lib/Old", "lib/.tmp_1"⟩, ⟨"lib/.tmp_1", "lib/New"⟩,
   ⟨"lib/Old/f.mkv", "lib/New/f.mkv"⟩]

/-- Path set after the three steps of `txOps0` have completed. -/
def txFs1 : Finset String :=
  fsRename (fsRename (fsRename txFs0 "lib/Old" "lib/.tmp_1") "lib/.tmp_1" "lib/New")
    "lib/Old/f.mkv" "lib/New/f.mkv"

/-- Closed witness for C1: the three-step transaction over the concrete path
set succeeds, and rolling its log back restores exactly the original set. -/
theorem rollback_restores_witness :
    execOps txFs0 txOps0 = some txFs1 ∧ rollback txFs1 txOps0 = txFs0 := by
  have h : execOps txFs0 txOps0 = some txFs1 := by decide
  exact ⟨h, rollback_restores _ _ _ h⟩

/-- C3 counterexample: the claim says a rate-limited request is retried exactly
once and gives up (returns absence) if the retry also fails.  With the script
"429, 429, success": the code makes a third attempt and returns the data, i.e.
more than two HTTP attempts are made.  (`_tmdb_request` retries by unbounded
recursion, with no retry counter.) -/
theorem tmdb_request_retry_cex :
    tmdb_request [HttpResp.httpError 429, HttpResp.httpError 429, HttpResp.success (7 : Nat)] =
      (some 7, 3) ∧
    ¬ (tmdb_request [HttpResp.httpError 429, HttpResp.httpError 429,
        HttpResp.success (7 : Nat)]).2 ≤ 2 := by
  constructor
  · rfl
  · decide

/-- C3 amended: a rate-limited catalog request sleeps a fixed backoff and
retries for as long as rate-limit responses keep arriving (unboundedly many
times, not exactly once); the first non-rate-limit response decides the
outcome — its data on success, and "no data" (never an error) on any other
HTTP failure or exception. -/
theorem tmdb_request_retry_amended {α : Type} (n : Nat) (r : HttpResp α)
    (rest : List (HttpResp α)) (hr : isRateLimit r = false) :
    tmdb_request (List.replicate n (HttpResp.httpError 429) ++ r :: rest) =
      (respResult r, n + 1) := by
  induction n with
  | zero =>
    cases r with
    | success d => rfl
    | httpError c =>
      have hc : ¬ c = 429 := by
        simpa [isRateLimit] using hr
      simp [tmdb_request, respResult, hc]
    | netError => rfl
  | succ k ih =>
    simp [List.replicate_succ, tmdb_request, ih]

/-- Closed witness for C3 amended: two rate limits then a 404 yield "no data"
after three attempts. -/
theorem tmdb_request_retry_amended_witness :
    isRateLimit (HttpResp.httpError 404 (α := Nat)) = false ∧
    tmdb_request (List.replicate 2 (HttpResp.httpError 429) ++
        HttpResp.httpError 404 :: ([] : List (HttpResp Nat))) = (none, 3) := by
  exact ⟨by decide, tmdb_request_retry_amended 2 _ _ (by decide)⟩

/-! ## Name sanitization (`_sanitize`)

`_sanitize` removes the nine Windows-forbidden characters, removes the range
`\x00-\x1f`, collapses every whitespace run to one space (`re.sub(r'\s+', ' ')`),
strips leading/trailing dots and spaces, and errors if the result is empty or
longer than 200 characters (it never truncates). -/

/-- The nine characters `<>:"/\|?*` removed by `_sanitize`'s replace loop. -/
def specialChar (c : Char) : Bool :=
  ['<', '>', ':', '"', '/', '\\', '|', '?', '*'].contains c

/-- Replace every maximal run of whitespace by a single `' '`, as
`re.sub(r'\s+', ' ', name)` does. -/
def collapseWs : List Char → List Char
  | [] => []
  | [c] => if pyWs c then [' '] else [c]
  | c :: d :: rest =>
    if pyWs c then
      (if pyWs d then collapseWs (d :: rest) else ' ' :: collapseWs (d :: rest))
    else c :: collapseWs (d :: rest)

/-- The strip set of Python's `.strip('. ')`. -/
def dotSpace (c : Char) : Bool :=
  c = '.' || c = ' '

/-- Python `.strip('. ')`: drop leading and trailing dots/spaces. -/
def stripDotSpace (l : List Char) : List Char :=
  ((l.dropWhile dotSpace).reverse.dropWhile dotSpace).reverse

/-- The text produced by `_sanitize`'s transformation pipeline, in source
order: remove specials, remove `\x00-\x1f`, collapse whitespace, strip dots
and spaces. -/
def sanitizeCore (name : String) : List Char :=
  stripDotSpace (collapseWs
    ((name.data.filter (fun c => !specialChar c)).filter (fun c => decide (31 < c.val))))

/-- `MediaRenamer._sanitize`: raises `RenameError` (modelled as `Except.error`)
on an empty input, an empty post-pipeline result, or a result longer than 200
characters; otherwise returns the sanitized name unchanged (no truncation). -/
def sanitize (name : String) : Except String String :=
  if name = "" then .error "Empty name"
  else if sanitizeCore name = [] then .error "Name empty after sanitization"
  else if 200 < (sanitizeCore name).length then .error "Name too long"
  else .ok (String.mk (sanitizeCore name))

instance {e a : Type} [DecidableEq e] [DecidableEq a] : DecidableEq (Except e a) := fun x y =>
  match x, y with
  | .ok u, .ok v =>
    if h : u = v then isTrue (by rw [h]) else isFalse (fun he => by cases he; exact h rfl)
  | .error u, .error v =>
    if h : u = v then isTrue (by rw [h]) else isFalse (fun he => by cases he; exact h rfl)
  | .ok _, .error _ => isFalse (fun he => by cases he)
  | .error _, .ok _ => isFalse (fun he => by cases he)

/-- A Unicode control character (general category Cc): C0 controls, DEL, and
C1 controls. -/
def isUnicodeControl (c : Char) : Bool :=
  c.val ≤ 31 || (127 ≤ c.val && c.val ≤ 159)

theorem collapseWs_mem {c : Char} : ∀ {l : List Char}, c ∈ collapseWs l →
    c = ' ' ∨ (c ∈ l ∧ pyWs c = false) := by
  intro l
  induction l with
  | nil => intro h; simp [collapseWs] at h
  | cons a t ih =>
    cases t with
    | nil =>
      intro h
      by_cases ha : pyWs a = true
      · simp [collapseWs, ha] at h
        exact Or.inl h
      · simp [collapseWs, ha] at h
        subst h
        exact Or.inr ⟨List.mem_singleton_self _, by simpa using ha⟩
    | cons d t' =>
      intro h
      by_cases ha : pyWs a = true
      · by_cases hd : pyWs d = true
        · simp only [collapseWs, ha, hd, if_pos] at h
          rcases ih h with h' | ⟨hm, hw⟩
          · exact Or.inl h'
          · exact Or.inr ⟨List.mem_cons_of_mem _ hm, hw⟩
        · simp only [collapseWs, ha, hd, if_pos, if_neg, Bool.false_eq_true,
            not_false_iff, List.mem_cons] at h
          rcases h with h | h
          · exact Or.inl h
          · rcases ih h with h' | ⟨hm, hw⟩
            · exact Or.inl h'
            · exact Or.inr ⟨List.mem_cons_of_mem _ hm, hw⟩
      · simp only [collapseWs, ha, Bool.false_eq_true, not_false_iff, if_neg,
          List.mem_cons] at h
        rcases h with h | h
        · subst h
          exact Or.inr ⟨List.mem_cons_self _ _, by simpa using ha⟩
        · rcases ih h with h' | ⟨hm, hw⟩
          · exact Or.inl h'
          · exact Or.inr ⟨List.mem_cons_of_mem _ hm, hw⟩

theorem collapseWs_head (c : Char) (l : List Char) :
    (collapseWs (c :: l)).head? = some (if pyWs c then ' ' else c) := by
  induction l generalizing c with
  | nil =>
    by_cases hc : pyWs c = true <;> simp [collapseWs, hc]
  | cons d t ih =>
    by_cases hc : pyWs c = true
    · by_cases hd : pyWs d = true
      · simp only [collapseWs, hc, hd, if_pos]
        rw [ih d]
        simp [hd, hc]
      · simp [collapseWs, hc, hd]
    · simp [collapseWs, hc]

theorem collapseWs_chain : ∀ l : List Char,
    List.Chain' (fun a b => ¬(pyWs a = true ∧ pyWs b = true)) (collapseWs l) := by
  intro l
  induction l with
  | nil => simp [collapseWs]
  | cons a t ih =>
    cases t with
    | nil =>
      by_cases ha : pyWs a = true <;> simp [collapseWs, ha]
    | cons d t' =>
      by_cases ha : pyWs a = true
      · by_cases hd : pyWs d = true
        · simpa only [collapseWs, ha, hd, if_pos] using ih
        · simp only [collapseWs, ha, hd, if_pos]
          refine List.chain'_cons'.2 ⟨?_, ih⟩
          intro b hb
          rw [collapseWs_head d t', Option.mem_def, Option.some.injEq] at hb
          subst hb
          simp [hd]
      · simp only [collapseWs, ha, Bool.false_eq_true, not_false_iff, if_neg]
        refine List.chain'_cons'.2 ⟨?_, ih⟩
        intro b _
        simp [ha]

theorem mem_dropWhile {α : Type} (p : α → Bool) {c : α} :
    ∀ {l : List α}, c ∈ l.dropWhile p → c ∈ l := by
  intro l
  induction l with
  | nil => intro h; simp at h
  | cons a t ih =>
    intro h
    rw [List.dropWhile_cons] at h
    by_cases ha : p a = true
    · simp only [ha, if_pos] at h
      exact List.mem_cons_of_mem _ (ih h)
    · simp [ha] at h
      rcases h with h | h
      · exact h ▸ List.mem_cons_self _ _
      · exact List.mem_cons_of_mem _ h

theorem dropWhile_isSuffix {α : Type} (p : α → Bool) :
    ∀ l : List α, l.dropWhile p <:+ l := by
  intro l
  induction l with
  | nil => exact List.suffix_refl _
  | cons a t ih =>
    rw [List.dropWhile_cons]
    by_cases ha : p a = true
    · simp only [ha, if_pos]
      exact ih.trans (List.suffix_cons _ _)
    · simp only [ha, if_neg]
      exact List.suffix_refl _

theorem dropWhile_head_not {α : Type} (p : α → Bool) {c : α} :
    ∀ {l : List α}, (l.dropWhile p).head? = some c → p c = false := by
  intro l
  induction l with
  | nil => intro h; simp at h
  | cons a t ih =>
    intro h
    rw [List.dropWhile_cons] at h
    by_cases ha : p a = true
    · simp only [ha, if_pos] at h
      exact ih h
    · simp [ha] at h
      rw [← h]
      simpa using ha

theorem stripDotSpace_contained (l : List Char) : stripDotSpace l <:+: l := by
  have h1 : l.dropWhile dotSpace <:+ l := dropWhile_isSuffix _ _
  have h2 : (l.dropWhile dotSpace).reverse.dropWhile dotSpace <:+
      (l.dropWhile dotSpace).reverse := dropWhile_isSuffix _ _
  obtain ⟨t, ht⟩ := h2
  have h3 : stripDotSpace l <+: l.dropWhile dotSpace := by
    refine ⟨t.reverse, ?_⟩
    unfold stripDotSpace
    rw [← List.reverse_append, ht, List.reverse_reverse]
  have h4 : stripDotSpace l <:+: l.dropWhile dotSpace := List.IsPrefix.isInfix h3
  have h5 : l.dropWhile dotSpace <:+: l := List.IsSuffix.isInfix h1
  exact h4.trans h5

theorem stripDotSpace_head {l : List Char} {c : Char}
    (h : (stripDotSpace l).head? = some c) : dotSpace c = false := by
  have h2 : (l.dropWhile dotSpace).reverse.dropWhile dotSpace <:+
      (l.dropWhile dotSpace).reverse := dropWhile_isSuffix _ _
  obtain ⟨t, ht⟩ := h2
  have h3 : stripDotSpace l ++ t.reverse = l.dropWhile dotSpace := by
    unfold stripDotSpace
    rw [← List.reverse_append, ht, List.reverse_reverse]
  have h4 : (l.dropWhile dotSpace).head? = some c := by
    rw [← h3, List.head?_append, h]
    rfl
  exact dropWhile_head_not _ h4

theorem stripDotSpace_getLast {l : List Char} {c : Char}
    (h : (stripDotSpace l).getLast? = some c) : dotSpace c = false := by
  have h' : ((l.dropWhile dotSpace).reverse.dropWhile dotSpace).head? = some c := by
    rw [← List.getLast?_reverse]
    exact h
  exact dropWhile_head_not _ h'

/-- C9 counterexample: the claim says *all* control characters are removed
before any filesystem call, but `_sanitize` only removes `\x00-\x1f`: the
DEL character U+007F (a Unicode Cc control character) survives sanitization
and the operation succeeds. -/
theorem sanitize_control_cex :
    sanitize (String.mk ['a', Char.ofNat 127, 'b']) =
      Except.ok (String.mk ['a', Char.ofNat 127, 'b']) ∧
    Char.ofNat 127 ∈ (String.mk ['a', Char.ofNat 127, 'b']).data ∧
    isUnicodeControl (Char.ofNat 127) = true := by
  refine ⟨?_, by decide, by decide⟩
  decide

/-- C9 amended: sanitization removes the characters `<>:"/\|?*` and the
control characters U+0000–U+001F (only that range, not all Unicode control
characters), collapses every whitespace run to a single space, trims leading
and trailing dots and spaces, returns exactly the transformed text (never a
truncation), and fails with an error exactly when the transformed text is
empty or longer than 200 characters. -/
theorem sanitize_spec_amended (name : String) :
    (∀ s, sanitize name = .ok s → s.data = sanitizeCore name) ∧
    ((sanitize name).isOk = false ↔
      (sanitizeCore name = [] ∨ 200 < (sanitizeCore name).length)) ∧
    (∀ c ∈ sanitizeCore name,
      specialChar c = false ∧ 31 < c.val ∧ (pyWs c = true → c = ' ')) ∧
    List.Chain' (fun a b => ¬(pyWs a = true ∧ pyWs b = true)) (sanitizeCore name) ∧
    (∀ c, (sanitizeCore name).head? = some c → dotSpace c = false) ∧
    (∀ c, (sanitizeCore name).getLast? = some c → dotSpace c = false) := by
  refine ⟨?_, ?_, ?_, ?_, fun c h => stripDotSpace_head h, fun c h => stripDotSpace_getLast h⟩
  · intro s h
    unfold sanitize at h
    split_ifs at h
    cases h
    rfl
  · unfold sanitize
    by_cases h0 : name = ""
    · subst h0
      simp [sanitizeCore, stripDotSpace, collapseWs, Except.isOk, Except.toBool]
    · split_ifs with h1 h2
      · simp [Except.isOk, Except.toBool, h1]
      · simp [Except.isOk, Except.toBool, h0, h1, h2]
      · simp [Except.isOk, Except.toBool, h0, h1, h2]
  · intro c hc
    have hc' : c ∈ collapseWs
        ((name.data.filter (fun c => !specialChar c)).filter (fun c => decide (31 < c.val))) :=
      (stripDotSpace_contained _).subset hc
    rcases collapseWs_mem hc' with h | ⟨hm, hw⟩
    · subst h
      refine ⟨by decide, by decide, fun _ => rfl⟩
    · have h2 := (List.mem_filter.1 hm).2
      have h1 := (List.mem_filter.1 (List.mem_filter.1 hm).1).2
      refine ⟨by simpa using h1, by simpa using h2, ?_⟩
      intro hws
      rw [hws] at hw
      cases hw
  · exact List.Chain'.infix (collapseWs_chain _) (stripDotSpace_contained _)

/-- Closed witness for C9 amended: a concrete messy name is sanitized to
`"Mov ie"`, whose characters satisfy the stated character-level properties. -/
theorem sanitize_spec_amended_witness :
    (" .Mov  ie*.. " : String) ≠ "" ∧
    sanitize " .Mov  ie*.. " = Except.ok "Mov ie" ∧
    ("Mov ie" : String).data = sanitizeCore " .Mov  ie*.. " ∧
    (specialChar 'M' = false ∧ 31 < 'M'.val ∧ (pyWs 'M' = true → 'M' = ' ')) := by
  refine ⟨by decide, by decide, ?_, ?_⟩
  · exact (sanitize_spec_amended " .Mov  ie*.. ").1 "Mov ie" (by decide)
  · exact (sanitize_spec_amended " .Mov  ie*.. ").2.2.1 'M' (by decide)

/-! ## Folder classification (`_is_collection`, `_detect_type`)

`_detect_type` receives the video list produced by `_find_videos`, which is
sorted by descending file size; the list is a parameter here, with sortedness
as an explicit hypothesis where a theorem needs it. -/

/-- Does `sub` occur as a contiguous substring of `l`?  (Models `re.search` of
a plain-text pattern.) -/
def hasSubstr (l sub : List Char) : Bool :=
  match l with
  | [] => sub.isEmpty
  | c :: t => sub.isPrefixOf (c :: t) || hasSubstr t sub

/-- Does the year-range pattern `\d{4}\s*[-–]\s*\d{4}` match starting at the
head of the list? -/
def yearRangeFrom : List Char → Bool
  | d1 :: d2 :: d3 :: d4 :: rest =>
    d1.isDigit && d2.isDigit && d3.isDigit && d4.isDigit &&
    (match rest.dropWhile pyWs with
     | dash :: r2 =>
       (dash == '-' || dash == '–') &&
       (match r2.dropWhile pyWs with
        | e1 :: e2 :: e3 :: e4 :: _ => e1.isDigit && e2.isDigit && e3.isDigit && e4.isDigit
        | _ => false)
     | [] => false)
  | _ => false

/-- `re.search` of the year-range pattern anywhere in the list. -/
def hasYearRange : List Char → Bool
  | [] => false
  | c :: t => yearRangeFrom (c :: t) || hasYearRange t

/-- `MediaRenamer._is_collection`: a collection-phrase pattern in the folder
name (all matched case-insensitively: `collection`, `sammlung`, `anthology`,
`saga`, `box[.]set`, or a 4-digit year range), or — with at least two videos —
two distinct truthy extracted years, two distinct truthy extracted titles, or
two videos over 1 GiB without episode info. -/
def is_collection (folder_name : String) (videos : List VideoFile) : Bool :=
  let low := folder_name.data.map Char.toLower
  hasSubstr low "collection".data || hasSubstr low "sammlung".data ||
  hasSubstr low "anthology".data || hasSubstr low "saga".data ||
  hasSubstr low "boxset".data || hasSubstr low "box.set".data ||
  hasYearRange folder_name.data ||
  (decide (2 ≤ videos.length) &&
    (decide (2 ≤ (((videos.filterMap (fun v => v.extracted_year)).filter
        (fun y => y != "")).eraseDups).length) ||
     decide (2 ≤ (((videos.filterMap (fun v => v.extracted_title)).filter
        (fun t => t != "")).eraseDups).length) ||
     decide (2 ≤ (videos.filter
        (fun v => decide (1073741824 < v.size_bytes) && v.episode_info.isNone)).length)))

/-- The series cue `re.search(r's\d{1,2}|season|staffel', name, re.I)` used by
`_detect_type`, scanned over the lowercased name. -/
def seriesCueFrom : List Char → Bool
  | [] => false
  | c :: t =>
    (c == 's' && (match t with | d :: _ => d.isDigit | [] => false)) ||
    "season".data.isPrefixOf (c :: t) || "staffel".data.isPrefixOf (c :: t) ||
    seriesCueFrom t

/-- Case-insensitive series cue on a folder name. -/
def seriesCue (folder_name : String) : Bool :=
  seriesCueFrom (folder_name.data.map Char.toLower)

/-- `MediaRenamer._detect_type`, given the folder name and the size-sorted
video list from `_find_videos`.  `size_gb > 1` is exactly
`size_bytes > 2^30` (division by the power of two is exact on floats). -/
def detect_type (folder_name : String) (videos : List VideoFile) : MediaType :=
  if videos.isEmpty then MediaType.UNKNOWN
  else if is_collection folder_name videos then MediaType.COLLECTION
  else if 2 ≤ (videos.filter (fun v => v.media_type == MediaType.SERIES)).length then
    MediaType.SERIES
  else if (match videos.filter (fun v => v.media_type == MediaType.MOVIE) with
           | m :: _ => decide (1073741824 < m.size_bytes)
           | [] => false) then MediaType.MOVIE
  else if seriesCue folder_name then MediaType.SERIES
  else match videos with
       | v :: _ => v.media_type
       | [] => MediaType.UNKNOWN

/-- Concrete video list for the C5 counterexample: the largest item is a
series episode, a smaller item is a 2 GiB movie; same extracted title and
year, so the folder is not a collection. -/
def cexSeriesVid : VideoFile :=
  { path := "Stuff/ep.mkv", size_bytes := 5368709120, media_type := .SERIES,
    episode_info := some ⟨1, 2⟩, extracted_title := some "Stuff",
    extracted_year := some "2000" }

/-- The smaller movie item of the C5 counterexample. -/
def cexMovieVid : VideoFile :=
  { path := "Stuff/film.mkv", size_bytes := 2147483648, media_type := .MOVIE,
    episode_info := none, extracted_title := some "Stuff",
    extracted_year := some "2000" }

/-- C5 counterexample: the movie rule keys on the largest *movie-classified*
item (`movies[0]`), not on the largest collected item.  Here the folder is not
a collection, has one episode-bearing item, its largest item is a series
episode — yet `_detect_type` returns movie because a smaller movie exceeds
1 GiB, while the claim's biconditional (movie iff the best item is a movie
over 1 GiB) predicts otherwise. -/
theorem detect_type_movie_cex :
    List.Pairwise (fun a b => b.size_bytes ≤ a.size_bytes) [cexSeriesVid, cexMovieVid] ∧
    is_collection "Stuff" [cexSeriesVid, cexMovieVid] = false ∧
    ([cexSeriesVid, cexMovieVid].filter
      (fun v => v.media_type == MediaType.SERIES)).length < 2 ∧
    detect_type "Stuff" [cexSeriesVid, cexMovieVid] = MediaType.MOVIE ∧
    ¬ (detect_type "Stuff" [cexSeriesVid, cexMovieVid] = MediaType.MOVIE ↔
        ([cexSeriesVid, cexMovieVid].head?.elim False
          (fun v => v.media_type = MediaType.MOVIE ∧ 1073741824 < v.size_bytes))) := by
  refine ⟨by decide, by decide, by decide, by decide, ?_⟩
  intro hiff
  have h2 := hiff.mp (by decide)
  simp only [List.head?_cons, Option.elim] at h2
  exact absurd h2.1 (by decide)

/-- C5 amended: for a non-collection folder with fewer than two episode-bearing
items and a size-sorted video list, the movie rule fires exactly when *some*
movie-classified item exceeds 1 GiB (equivalently, the largest movie-classified
item does — not the largest item overall); otherwise classification falls to
the series-name-cue rule and then to the best item's own classification, and a
folder with no items is unknown. -/
theorem detect_type_movie_amended (folder_name : String) (videos : List VideoFile)
    (hsort : List.Pairwise (fun a b => b.size_bytes ≤ a.size_bytes) videos)
    (hne : videos ≠ [])
    (hcol : is_collection folder_name videos = false)
    (heps : (videos.filter (fun v => v.media_type == MediaType.SERIES)).length < 2) :
    detect_type folder_name [] = MediaType.UNKNOWN ∧
    ((∃ v ∈ videos, v.media_type = MediaType.MOVIE ∧ 1073741824 < v.size_bytes) →
      detect_type folder_name videos = MediaType.MOVIE) ∧
    ((¬ ∃ v ∈ videos, v.media_type = MediaType.MOVIE ∧ 1073741824 < v.size_bytes) →
      detect_type folder_name videos =
        (if seriesCue folder_name then MediaType.SERIES
         else videos.head?.elim MediaType.UNKNOWN (fun v => v.media_type))) := by
  have hemp : videos.isEmpty = false := by
    cases videos with
    | nil => exact absurd rfl hne
    | cons a t => rfl
  have hlt : ¬ 2 ≤ (videos.filter (fun v => v.media_type == MediaType.SERIES)).length :=
    Nat.not_le_of_lt heps
  refine ⟨rfl, ?_, ?_⟩
  · rintro ⟨v, hv, hmov, hbig⟩
    have hvf : v ∈ videos.filter (fun v => v.media_type == MediaType.MOVIE) :=
      List.mem_filter.2 ⟨hv, by simp [hmov]⟩
    have hcond : (match videos.filter (fun v => v.media_type == MediaType.MOVIE) with
        | m :: _ => decide (1073741824 < m.size_bytes)
        | [] => false) = true := by
      have hsf : List.Pairwise (fun a b => b.size_bytes ≤ a.size_bytes)
          (videos.filter (fun v => v.media_type == MediaType.MOVIE)) :=
        hsort.filter _
      cases hmf : videos.filter (fun v => v.media_type == MediaType.MOVIE) with
      | nil => rw [hmf] at hvf; simp at hvf
      | cons m rest =>
        rw [hmf] at hvf hsf
        rcases List.mem_cons.1 hvf with hvm | hvr
        · subst hvm
          simpa using hbig
        · have := (List.pairwise_cons.1 hsf).1 v hvr
          simp only [decide_eq_true_eq]
          exact lt_of_lt_of_le hbig this
    unfold detect_type
    simp [hemp, hcol, hlt, hcond]
  · intro hnex
    have hcond : (match videos.filter (fun v => v.media_type == MediaType.MOVIE) with
        | m :: _ => decide (1073741824 < m.size_bytes)
        | [] => false) = false := by
      cases hmf : videos.filter (fun v => v.media_type == MediaType.MOVIE) with
      | nil => rfl
      | cons m rest =>
        have hm : m ∈ videos.filter (fun v => v.media_type == MediaType.MOVIE) := by
          rw [hmf]; exact List.mem_cons_self _ _
        have hmv : m ∈ videos := (List.mem_filter.1 hm).1
        have hmt : m.media_type = MediaType.MOVIE := by
          have := (List.mem_filter.1 hm).2
          simpa using this
        simp only [decide_eq_false_iff_not, not_lt]
        by_contra hb
        push_neg at hb
        exact hnex ⟨m, hmv, hmt, hb⟩
    unfold detect_type
    cases videos with
    | nil => exact absurd rfl hne
    | cons a t =>
      by_cases hs : seriesCue folder_name = true
      · simp [hemp, hcol, hlt, hcond, hs] at *
      · simp only [Bool.not_eq_true] at hs
        simp [hemp, hcol, hlt, hcond, hs] at *

/-- Closed witness for C5 amended: a single 2 GiB movie item yields a movie
classification, discharging all the hypotheses concretely. -/
theorem detect_type_movie_amended_witness :
    detect_type "Stuff" [cexMovieVid] = MediaType.MOVIE ∧
    detect_type "Stuff" [cexSeriesVid] =
      (if seriesCue "Stuff" then MediaType.SERIES
       else [cexSeriesVid].head?.elim MediaType.UNKNOWN (fun v => v.media_type)) := by
  constructor
  · exact (detect_type_movie_amended "Stuff" [cexMovieVid] (by decide) (by decide)
      (by decide) (by decide)).2.1 ⟨cexMovieVid, by decide, by decide, by decide⟩
  · exact (detect_type_movie_amended "Stuff" [cexSeriesVid] (by decide) (by decide)
      (by decide) (by decide)).2.2 (by decide)

/-! ## Catalog search, de-duplication and ranking (`_search_tmdb`)

`_search_tmdb` iterates over the query variants (stopping before a variant once
8 candidates have accumulated), calls the search endpoint per variant, skips
result items whose id is falsy or already seen, eagerly resolves the IMDb id
for the first three accumulated candidates, then sorts (year matches first,
descending popularity within groups — purely descending popularity when no
year) and caps the list at 10.  The variant list and both endpoints are
parameters: claims C6/C7 quantify over "every sequence of query variants", so
`_generate_search_variants` is not needed here. -/

/-- One raw item of a TMDb search response, with exactly the fields
`_search_tmdb` reads (absent key ↦ `none`, matching `dict.get`). -/
structure RawItem where
  id : Option Nat
  title : Option String := none
  name : Option String := none
  original_title : Option String := none
  original_name : Option String := none
  release_date : Option String := none
  first_air_date : Option String := none
  popularity : Option ℚ := none
deriving DecidableEq

/-- The `MediaMatch` built from one raw search-result item inside the loop of
`_search_tmdb`; `accLen` is the number of candidates accumulated so far (the
IMDb id is resolved only while it is below 3). -/
def mkMatch (imdbOf : Nat → Option String) (isSeries : Bool) (accLen : Nat) (i : Nat)
    (item : RawItem) : MediaMatch :=
  let rd := if isSeries then item.first_air_date.getD "" else item.release_date.getD ""
  { tmdb_id := i,
    imdb_id := if accLen < 3 then imdbOf i else none,
    title := if isSeries then item.name.getD "" else item.title.getD "",
    original_title :=
      if isSeries then item.original_name.getD "" else item.original_title.getD "",
    year := if rd = "" then "" else rd.take 4,
    media_type := if isSeries then "tv" else "movie",
    popularity := item.popularity.getD 0 }

/-- The inner `for item in data['results']` loop of `_search_tmdb`: threads the
accumulated candidate list and the `seen_ids` set; skips falsy (`None`/`0`) and
already-seen ids; resolves the IMDb id only while fewer than 3 candidates have
accumulated. -/
def procItems (imdbOf : Nat → Option String) (isSeries : Bool) :
    List RawItem → List MediaMatch → List Nat → List MediaMatch × List Nat
  | [], acc, seen => (acc, seen)
  | item :: rest, acc, seen =>
    match item.id with
    | none => procItems imdbOf isSeries rest acc seen
    | some i =>
      if i = 0 ∨ i ∈ seen then procItems imdbOf isSeries rest acc seen
      else procItems imdbOf isSeries rest
        (acc ++ [mkMatch imdbOf isSeries acc.length i item]) (i :: seen)

/-- The outer variant loop of `_search_tmdb`: break once 8 candidates have
accumulated; a variant whose response is missing or has no `results` key is
skipped (`api` returns `none` for it). -/
def searchLoop (api : String → Option String → Option (List RawItem))
    (imdbOf : Nat → Option String) (isSeries : Bool) :
    List (String × Option String) → List MediaMatch → List Nat → List MediaMatch
  | [], acc, _ => acc
  | (q, yr) :: rest, acc, seen =>
    if 8 ≤ acc.length then acc
    else
      match api q yr with
      | none => searchLoop api imdbOf isSeries rest acc seen
      | some items =>
        let s := procItems imdbOf isSeries items acc seen
        searchLoop api imdbOf isSeries rest s.1 s.2

/-- First component of the Python sort key
`(0 if r.year == year else 1, -r.popularity)`. -/
def yearRank (y : String) (m : MediaMatch) : Nat :=
  if m.year = y then 0 else 1

/-- The total preorder realized by the Python sort key when a year was
supplied: ascending in the lexicographic key `(yearRank, -popularity)`. -/
def rankLe (y : String) (a b : MediaMatch) : Prop :=
  yearRank y a < yearRank y b ∨
    (yearRank y a = yearRank y b ∧ b.popularity ≤ a.popularity)

/-- The total preorder of the no-year sort key `-r.popularity`. -/
def popLe (a b : MediaMatch) : Prop :=
  b.popularity ≤ a.popularity

instance (y : String) : DecidableRel (rankLe y) := fun a b =>
  inferInstanceAs (Decidable (yearRank y a < yearRank y b ∨
    (yearRank y a = yearRank y b ∧ b.popularity ≤ a.popularity)))

instance : DecidableRel popLe := fun a b =>
  inferInstanceAs (Decidable (b.popularity ≤ a.popularity))

instance (y : String) : IsTotal MediaMatch (rankLe y) :=
  ⟨fun a b => by
    unfold rankLe
    rcases lt_trichotomy (yearRank y a) (yearRank y b) with h | h | h
    · exact Or.inl (Or.inl h)
    · rcases le_total b.popularity a.popularity with hp | hp
      · exact Or.inl (Or.inr ⟨h, hp⟩)
      · exact Or.inr (Or.inr ⟨h.symm, hp⟩)
    · exact Or.inr (Or.inl h)⟩

instance (y : String) : IsTrans MediaMatch (rankLe y) :=
  ⟨fun a b c hab hbc => by
    unfold rankLe at *
    rcases hab with h1 | ⟨h1, p1⟩
    · rcases hbc with h2 | ⟨h2, p2⟩
      · exact Or.inl (h1.trans h2)
      · exact Or.inl (h2 ▸ h1)
    · rcases hbc with h2 | ⟨h2, p2⟩
      · exact Or.inl (h1 ▸ h2)
      · exact Or.inr ⟨h1.trans h2, p2.trans p1⟩⟩

instance : IsTotal MediaMatch popLe :=
  ⟨fun a b => le_total b.popularity a.popularity⟩

instance : IsTrans MediaMatch popLe :=
  ⟨fun _ _ _ h1 h2 => h2.trans h1⟩

/-- The final sort-and-cap of `_search_tmdb`.  Python's `list.sort` is a stable
ascending sort by the key, and a stable sort is uniquely determined by its
total preorder, so Mathlib's stable `insertionSort` realizes it exactly;
`results[:10]` is `take 10`. -/
def rankResults (year : Option String) (rs : List MediaMatch) : List MediaMatch :=
  if strTruthy year then (List.insertionSort (rankLe (year.getD "")) rs).take 10
  else (List.insertionSort popLe rs).take 10

/-- `MediaRenamer._search_tmdb`, parameterized by the search endpoint, the
IMDb-id endpoint and the variant list. -/
def search_tmdb (api : String → Option String → Option (List RawItem))
    (imdbOf : Nat → Option String) (isSeries : Bool)
    (variants : List (String × Option String)) (year : Option String) : List MediaMatch :=
  rankResults year (searchLoop api imdbOf isSeries variants [] [])

theorem rankLe_claim (y : String) (a b : MediaMatch) (h : rankLe y a b) :
    (a.year ≠ y → b.year ≠ y) ∧
    ((a.year = y ↔ b.year = y) → b.popularity ≤ a.popularity) := by
  unfold rankLe yearRank at h
  constructor
  · intro ha hb
    rw [if_neg ha, if_pos hb] at h
    rcases h with h | ⟨h, _⟩
    · omega
    · omega
  · intro hiff
    by_cases ha : a.year = y
    · have hb : b.year = y := hiff.mp ha
      rw [if_pos ha, if_pos hb] at h
      rcases h with h | ⟨_, hp⟩
      · omega
      · exact hp
    · have hb : ¬ b.year = y := fun hb => ha (hiff.mpr hb)
      rw [if_neg ha, if_neg hb] at h
      rcases h with h | ⟨_, hp⟩
      · omega
      · exact hp

/-- C6: every list returned by the ranker has at most 10 entries; with a
(truthy) year supplied, any entry whose year misses the supplied year is never
followed by one that matches it, and entries in the same year group appear in
descending popularity; with no year supplied the whole list is in descending
popularity. -/
theorem ranker_order (api : String → Option String → Option (List RawItem))
    (imdbOf : Nat → Option String) (isSeries : Bool)
    (variants : List (String × Option String)) (year : Option String) :
    (search_tmdb api imdbOf isSeries variants year).length ≤ 10 ∧
    (∀ y, year = some y → strTruthy year = true →
      List.Pairwise (fun a b =>
        (a.year ≠ y → b.year ≠ y) ∧
        ((a.year = y ↔ b.year = y) → b.popularity ≤ a.popularity))
        (search_tmdb api imdbOf isSeries variants year)) ∧
    (strTruthy year = false →
      List.Pairwise (fun a b => b.popularity ≤ a.popularity)
        (search_tmdb api imdbOf isSeries variants year)) := by
  refine ⟨?_, ?_, ?_⟩
  · unfold search_tmdb rankResults
    by_cases ht : strTruthy year = true
    · rw [if_pos ht]
      exact List.length_take_le _ _
    · rw [if_neg (by simp [ht])]
      exact List.length_take_le _ _
  · intro y hy ht
    subst hy
    unfold search_tmdb rankResults
    rw [if_pos ht]
    have hs : List.Pairwise (rankLe y)
        (List.insertionSort (rankLe y) (searchLoop api imdbOf isSeries variants [] [])) := by
      simpa [Option.getD] using
        List.sorted_insertionSort (rankLe ((some y).getD ""))
          (searchLoop api imdbOf isSeries variants [] [])
    exact ((hs.sublist (List.take_sublist _ _)).imp (fun h => rankLe_claim y _ _ h))
  · intro ht
    unfold search_tmdb rankResults
    rw [if_neg (by simp [ht])]
    have hs : List.Pairwise popLe
        (List.insertionSort popLe (searchLoop api imdbOf isSeries variants [] [])) :=
      List.sorted_insertionSort popLe _
    exact (hs.sublist (List.take_sublist _ _)).imp (fun h => h)

/-- Search endpoint for the C6 witness: one variant returning two candidates,
the year-matching one with the lower popularity. -/
def rankApi : String → Option String → Option (List RawItem) :=
  fun q _ =>
    if q = "Alien" then
      some [{ id := some 11, title := some "Alien B", release_date := some "1999-05-01",
              popularity := some 50 },
            { id := some 12, title := some "Alien A", release_date := some "2000-05-01",
              popularity := some 3 }]
    else none

/-- Closed witness for C6: on the concrete endpoint the ranker returns at most
10 entries, ordered with the year match first. -/
theorem ranker_order_witness :
    (search_tmdb rankApi (fun _ => none) false [("Alien", some "2000")] (some "2000")).length ≤ 10 ∧
    List.Pairwise (fun a b =>
        (a.year ≠ "2000" → b.year ≠ "2000") ∧
        ((a.year = "2000" ↔ b.year = "2000") → b.popularity ≤ a.popularity))
      (search_tmdb rankApi (fun _ => none) false [("Alien", some "2000")] (some "2000")) := by
  exact ⟨(ranker_order rankApi (fun _ => none) false [("Alien", some "2000")] (some "2000")).1,
    (ranker_order rankApi (fun _ => none) false [("Alien", some "2000")] (some "2000")).2.1
      "2000" rfl (by decide)⟩

/-- The catalog identifiers of an accumulated candidate list. -/
def accIds (acc : List MediaMatch) : List Nat :=
  acc.map (fun m => m.tmdb_id)

theorem procItems_ids (imdbOf : Nat → Option String) (isSeries : Bool) :
    ∀ (items : List RawItem) (acc : List MediaMatch) (seen : List Nat),
      (accIds acc).Nodup → (∀ x ∈ accIds acc, x ∈ seen) →
      (accIds (procItems imdbOf isSeries items acc seen).1).Nodup ∧
      ∀ x ∈ accIds (procItems imdbOf isSeries items acc seen).1,
        x ∈ (procItems imdbOf isSeries items acc seen).2 := by
  intro items
  induction items with
  | nil => intro acc seen hn hsub; exact ⟨hn, hsub⟩
  | cons item rest ih =>
    intro acc seen hn hsub
    cases hid : item.id with
    | none =>
      simpa [procItems, hid] using ih acc seen hn hsub
    | some i =>
      by_cases hskip : i = 0 ∨ i ∈ seen
      · simpa [procItems, hid, hskip] using ih acc seen hn hsub
      · have hnotseen : i ∉ seen := fun hc => hskip (Or.inr hc)
        have hninacc : i ∉ accIds acc := fun hc => hnotseen (hsub i hc)
        have hn' : (accIds acc ++ [i]).Nodup := by
          rw [List.nodup_append]
          exact ⟨hn, List.nodup_singleton i, by simpa using hninacc⟩
        have hsub' : ∀ x ∈ accIds acc ++ [i], x ∈ i :: seen := by
          intro x hx
          rcases List.mem_append.1 hx with hx | hx
          · exact List.mem_cons_of_mem _ (hsub x hx)
          · simp at hx
            subst hx
            exact List.mem_cons_self _ _
        have hidm : (mkMatch imdbOf isSeries acc.length i item).tmdb_id = i := rfl
        have := ih (acc ++ [mkMatch imdbOf isSeries acc.length i item]) (i :: seen)
          (by simpa [accIds, hidm] using hn') (by simpa [accIds, hidm] using hsub')
        simpa [procItems, hid, hskip] using this

theorem searchLoop_ids (api : String → Option String → Option (List RawItem))
    (imdbOf : Nat → Option String) (isSeries : Bool) :
    ∀ (variants : List (String × Option String)) (acc : List MediaMatch) (seen : List Nat),
      (accIds acc).Nodup → (∀ x ∈ accIds acc, x ∈ seen) →
      (accIds (searchLoop api imdbOf isSeries variants acc seen)).Nodup := by
  intro variants
  induction variants with
  | nil => intro acc seen hn _; exact hn
  | cons v rest ih =>
    intro acc seen hn hsub
    obtain ⟨q, yr⟩ := v
    by_cases hbreak : 8 ≤ acc.length
    · simpa [searchLoop, hbreak] using hn
    · cases hapi : api q yr with
      | none => simpa [searchLoop, hbreak, hapi] using ih acc seen hn hsub
      | some items =>
        have hp := procItems_ids imdbOf isSeries items acc seen hn hsub
        simpa [searchLoop, hbreak, hapi] using
          ih (procItems imdbOf isSeries items acc seen).1
            (procItems imdbOf isSeries items acc seen).2 hp.1 hp.2

/-- Search endpoint for the C7 counterexample: variant `q1` yields seven
candidates (id 1 with a mismatching year and zero popularity), variant `q2`
yields ten fresh candidates plus a duplicate of id 1. -/
def dedupApi : String → Option String → Option (List RawItem) :=
  fun q _ =>
    if q = "q1" then
      some [{ id := some 1, title := some "T", release_date := some "1999-01-01",
              popularity := some 0 },
            { id := some 2, title := some "T", release_date := some "2000-01-01",
              popularity := some 10 },
            { id := some 3, title := some "T", release_date := some "2000-01-01",
              popularity := some 10 },
            { id := some 4, title := some "T", release_date := some "2000-01-01",
              popularity := some 10 },
            { id := some 5, title := some "T", release_date := some "2000-01-01",
              popularity := some 10 },
            { id := some 6, title := some "T", release_date := some "2000-01-01",
              popularity := some 10 },
            { id := some 7, title := some "T", release_date := some "2000-01-01",
              popularity := some 10 }]
    else if q = "q2" then
      some [{ id := some 8, title := some "T", release_date := some "2000-01-01",
              popularity := some 5 },
            { id := some 9, title := some "T", release_date := some "2000-01-01",
              popularity := some 5 },
            { id := some 10, title := some "T", release_date := some "2000-01-01",
              popularity := some 5 },
            { id := some 11, title := some "T", release_date := some "2000-01-01",
              popularity := some 5 },
            { id := some 12, title := some "T", release_date := some "2000-01-01",
              popularity := some 5 },
            { id := some 13, title := some "T", release_date := some "2000-01-01",
              popularity := some 5 },
            { id := some 14, title := some "T", release_date := some "2000-01-01",
              popularity := some 5 },
            { id := some 15, title := some "T", release_date := some "2000-01-01",
              popularity := some 5 },
            { id := some 16, title := some "T", release_date := some "2000-01-01",
              popularity := some 5 },
            { id := some 17, title := some "T", release_date := some "2000-01-01",
              popularity := some 5 },
            { id := some 1, title := some "T", release_date := some "2000-01-01",
              popularity := some 100 }]
    else none

/-- The two variant queries of the C7 counterexample. -/
def dedupVariants : List (String × Option String) :=
  [("q1", some "2000"), ("q2", some "2000")]

/-- C7 counterexample: id 1 appears in the results of both variant queries,
yet it contributes *zero* entries to the final ranked list: its only retained
record (the first occurrence, with mismatching year and popularity 0) sorts
last among 17 accumulated candidates and is dropped by the cap to 10.  So "a
catalog identifier appearing in the results of two or more different variant
queries contributes exactly one entry to the final ranked list" fails as
stated. -/
theorem dedup_cex :
    ((dedupApi "q1" (some "2000")).getD []).filterMap (fun it => it.id) = [1, 2, 3, 4, 5, 6, 7] ∧
    ((dedupApi "q2" (some "2000")).getD []).filterMap (fun it => it.id) =
      [8, 9, 10, 11, 12, 13, 14, 15, 16, 17, 1] ∧
    (search_tmdb dedupApi (fun _ => none) false dedupVariants (some "2000")).countP
      (fun m => m.tmdb_id == 1) = 0 ∧
    (search_tmdb dedupApi (fun _ => none) false dedupVariants (some "2000")).length = 10 := by
  refine ⟨by decide, by decide, ?_, ?_⟩
  · decide
  · decide

/-- C7 amended: a catalog identifier contributes *at most* one entry to the
final ranked list (two entries never share an identifier; the cap to the top
10 may drop the identifier entirely), and a result item whose identifier has
already been seen is skipped outright — it neither adds an entry nor alters
the existing one, so the retained entry always carries the data of the first
occurrence. -/
theorem dedup_amended (api : String → Option String → Option (List RawItem))
    (imdbOf : Nat → Option String) (isSeries : Bool)
    (variants : List (String × Option String)) (year : Option String) :
    ((search_tmdb api imdbOf isSeries variants year).map (fun m => m.tmdb_id)).Nodup ∧
    (∀ (item : RawItem) (rest : List RawItem) (acc : List MediaMatch)
        (seen : List Nat) (i : Nat), item.id = some i → i ∈ seen →
      procItems imdbOf isSeries (item :: rest) acc seen =
        procItems imdbOf isSeries rest acc seen) := by
  constructor
  · have hloop : ((searchLoop api imdbOf isSeries variants [] []).map
        (fun m => m.tmdb_id)).Nodup := by
      have := searchLoop_ids api imdbOf isSeries variants [] []
        (by simp [accIds]) (by simp [accIds])
      simpa [accIds] using this
    unfold search_tmdb rankResults
    by_cases ht : strTruthy year = true
    · rw [if_pos ht, List.map_take]
      have hperm : List.Perm
          ((List.insertionSort (rankLe (year.getD ""))
            (searchLoop api imdbOf isSeries variants [] [])).map (fun m => m.tmdb_id))
          ((searchLoop api imdbOf isSeries variants [] []).map (fun m => m.tmdb_id)) :=
        (List.perm_insertionSort _ _).map _
      exact (List.take_sublist 10 _).nodup (hperm.nodup_iff.2 hloop)
    · rw [if_neg (by simp [ht]), List.map_take]
      have hperm : List.Perm
          ((List.insertionSort popLe
            (searchLoop api imdbOf isSeries variants [] [])).map (fun m => m.tmdb_id))
          ((searchLoop api imdbOf isSeries variants [] []).map (fun m => m.tmdb_id)) :=
        (List.perm_insertionSort _ _).map _
      exact (List.take_sublist 10 _).nodup (hperm.nodup_iff.2 hloop)
  · intro item rest acc seen i hid hmem
    simp [procItems, hid, hmem]

/-- Closed witness for C7 amended: the counterexample pipeline's final list
has pairwise-distinct catalog identifiers, and a duplicate raw item is
processed as a no-op. -/
theorem dedup_amended_witness :
    ((search_tmdb dedupApi (fun _ => none) false dedupVariants (some "2000")).map
      (fun m => m.tmdb_id)).Nodup ∧
    procItems (fun _ => none) false [{ id := some 3 }] [] [3, 2, 1] =
      procItems (fun _ => none) false [] [] [3, 2, 1] := by
  refine ⟨(dedup_amended dedupApi (fun _ => none) false dedupVariants (some "2000")).1, ?_⟩
  exact (dedup_amended dedupApi (fun _ => none) false dedupVariants (some "2000")).2
    { id := some 3 } [] [] [3, 2, 1] 3 rfl (by decide)

/-! ## Folder scanning (`scan_folder`, `_prepare_collection_items`)

`scan_folder` first tests the canonical-name regex
`^.+\s\(\d{4}\)\s\[imdbid-tt\d{7,}\]$` and short-circuits to `DONE`; otherwise
it runs `_detect_type` and `_extract_title_year` and classifies from the
ranked match list.  The collaborators (`_detect_type`'s filesystem walk,
`_extract_title_year`, `_search_tmdb`) enter as a `ScanEnv` of oracle values:
the control flow of `scan_folder` itself is embedded exactly. -/

/-- Strip an expected literal character sequence from the front of a list;
`none` if it does not match. -/
def dropLit : List Char → List Char → Option (List Char)
  | [], l => some l
  | _ :: _, [] => none
  | e :: es, c :: cs => if c = e then dropLit es cs else none

/-- The canonical "already renamed" test
`re.match(r'^.+\s\(\d{4}\)\s\[imdbid-tt\d{7,}\]$', folder_name)`, decided by a
deterministic parse from the end of the string (the trailing digit run, the
literal `[imdbid-tt`, the whitespace/parenthesized 4-digit year, and a
nonempty remainder are all forced by the anchored pattern).  `.` is modelled
as any character (folder names contain no newlines). -/
def canonicalShape (s : String) : Bool :=
  match s.data.reverse with
  | ']' :: r1 =>
    let ds := r1.takeWhile Char.isDigit
    let r2 := r1.dropWhile Char.isDigit
    decide (7 ≤ ds.length) &&
    (match dropLit "tt-dibdmi[".data r2 with
     | some (w1 :: ')' :: d1 :: d2 :: d3 :: d4 :: '(' :: w2 :: rest) =>
       pyWs w1 && d1.isDigit && d2.isDigit && d3.isDigit && d4.isDigit && pyWs w2 &&
       !rest.isEmpty
     | some _ => false
     | none => false)
  | _ => false

/-- Oracle values for `scan_folder`'s collaborators: the result of
`_detect_type(folder)`, the function `_extract_title_year`, and the function
`_search_tmdb` (embedded in full above; a parameter here). -/
structure ScanEnv where
  detect : MediaType × List VideoFile
  extract : String → Option String × Option String
  search : String → Option String → MediaType → List MediaMatch

/-- `MediaRenamer._prepare_collection_items`: one `CollectionItem` per video,
searched as a movie when a (truthy) title was extracted; selected and `AUTO`
exactly under the source's `len(matches) == 1 and year and matches[0].year ==
year` conditions, else `UNSURE`. -/
def prepare_collection_items
    (search : String → Option String → MediaType → List MediaMatch)
    (videos : List VideoFile) : List CollectionItem :=
  videos.map fun v =>
    let title := v.extracted_title
    let year := v.extracted_year
    let ms := if strTruthy title then search (title.getD "") year MediaType.MOVIE else []
    { folder_path := v.parent_folder,
      video_path := v.path,
      video_size_bytes := v.size_bytes,
      extracted_title := title,
      extracted_year := year,
      match_list := ms,
      selected_match :=
        if ms.length = 1 ∧ strTruthy year = true ∧
            (ms.head?.map (fun m => m.year)) = some (year.getD "") then ms.head?
        else none,
      status :=
        if ms ≠ [] ∧ ms.length = 1 ∧ strTruthy year = true ∧
            (ms.head?.map (fun m => m.year)) = some (year.getD "") then MatchStatus.AUTO
        else MatchStatus.UNSURE }

/-- The `ScanResult` returned by `scan_folder`'s canonical-name short-circuit:
a constant record — no detection, no extraction, no catalog query. -/
def doneResult (folderName : String) : ScanResult :=
  { folder_name := folderName, detected_type := MediaType.MOVIE,
    extracted_title := none, extracted_year := none, videos := [], match_list := [],
    selected_match := none, status := MatchStatus.DONE, new_name := none,
    error := none, collection_items := none }

/-- The ranked match list `scan_folder` receives from `_search_tmdb` for a
non-collection folder: title, year and detected type fed to the search. -/
def scanMs (env : ScanEnv) (folderName : String) : List MediaMatch :=
  env.search ((env.extract folderName).1.getD "") (env.extract folderName).2 env.detect.1

/-- `MediaRenamer.scan_folder`. -/
def scan_folder (env : ScanEnv) (folderName : String) : ScanResult :=
  if canonicalShape folderName then doneResult folderName
  else if env.detect.2 = [] then
    { folder_name := folderName, detected_type := env.detect.1,
      extracted_title := (env.extract folderName).1,
      extracted_year := (env.extract folderName).2, videos := env.detect.2,
      match_list := [], status := MatchStatus.NONE, error := some "No videos" }
  else if env.detect.1 = MediaType.COLLECTION then
    { folder_name := folderName, detected_type := env.detect.1,
      extracted_title := (env.extract folderName).1,
      extracted_year := (env.extract folderName).2, videos := env.detect.2,
      match_list := [], status := MatchStatus.MANUAL,
      error := some ("Collection (" ++ toString env.detect.2.length ++ " films)"),
      collection_items := some (prepare_collection_items env.search env.detect.2) }
  else if strTruthy (env.extract folderName).1 = false then
    { folder_name := folderName, detected_type := env.detect.1,
      extracted_title := (env.extract folderName).1,
      extracted_year := (env.extract folderName).2, videos := env.detect.2,
      match_list := [], status := MatchStatus.NONE, error := some "No title" }
  else if scanMs env folderName = [] then
    { folder_name := folderName, detected_type := env.detect.1,
      extracted_title := (env.extract folderName).1,
      extracted_year := (env.extract folderName).2, videos := env.detect.2,
      match_list := scanMs env folderName, status := MatchStatus.NONE,
      error := some "No matches" }
  else if (scanMs env folderName).length = 1 ∧
      strTruthy (env.extract folderName).2 = true ∧
      ((scanMs env folderName).head?.map (fun m => m.year)) =
        some ((env.extract folderName).2.getD "") then
    { folder_name := folderName, detected_type := env.detect.1,
      extracted_title := (env.extract folderName).1,
      extracted_year := (env.extract folderName).2, videos := env.detect.2,
      match_list := scanMs env folderName, status := MatchStatus.AUTO,
      selected_match := (scanMs env folderName).head? }
  else
    { folder_name := folderName, detected_type := env.detect.1,
      extracted_title := (env.extract folderName).1,
      extracted_year := (env.extract folderName).2, videos := env.detect.2,
      match_list := scanMs env folderName, status := MatchStatus.UNSURE }

/-- C8: for every folder name matching the canonical shape, `scan_folder`
returns the fixed `DONE` record, independent of every collaborator — so no
catalog query and no title extraction contribute to the outcome, and the
status is done-already. -/
theorem canonical_short_circuit (env : ScanEnv) (folderName : String)
    (h : canonicalShape folderName = true) :
    scan_folder env folderName = doneResult folderName := by
  unfold scan_folder
  rw [if_pos h]

/-- A concrete environment whose oracles would all be observable if consulted:
detection finds a movie video, extraction yields a title and year, and every
search reports one candidate. -/
def probeEnv : ScanEnv :=
  { detect := (MediaType.MOVIE,
      [{ path := "Alien (1979) [imdbid-tt0078748]/alien.mkv", size_bytes := 2147483648,
         media_type := .MOVIE, extracted_title := some "Alien",
         extracted_year := some "1979" }]),
    extract := fun _ => (some "Alien", some "1979"),
    search := fun _ _ _ =>
      [{ tmdb_id := 348, imdb_id := some "tt0078748", title := "Alien",
         original_title := "Alien", year := "1979", media_type := "movie",
         popularity := 50 }] }

/-- Closed witness for C8: the spec's own example name is canonical and
scanning it yields the constant `DONE` record even under `probeEnv`. -/
theorem canonical_short_circuit_witness :
    canonicalShape "Alien (1979) [imdbid-tt0078748]" = true ∧
    scan_folder probeEnv "Alien (1979) [imdbid-tt0078748]" =
      doneResult "Alien (1979) [imdbid-tt0078748]" := by
  refine ⟨by decide, ?_⟩
  exact canonical_short_circuit probeEnv _ (by decide)

/-- Environment for the C2 counterexample: `_detect_type` reports a
collection, searches return nothing. -/
def cexEnvC2 : ScanEnv :=
  { detect := (MediaType.COLLECTION,
      [{ path := "X/a.mkv", size_bytes := 2147483648, media_type := .MOVIE,
         extracted_title := some "A", extracted_year := some "1977" }]),
    extract := fun _ => (some "X", some "1977"),
    search := fun _ _ _ => [] }

/-- C2 counterexample: `scan_folder` gives a collection folder status
`MANUAL` with `selected_match = None` (line 739 of the source), so
"`selectedMatch` is set if and only if status is automatic or manual" fails
in the only-if direction. -/
theorem scan_selected_iff_cex :
    (scan_folder cexEnvC2 "X").status = MatchStatus.MANUAL ∧
    (scan_folder cexEnvC2 "X").selected_match = none ∧
    ¬ ((scan_folder cexEnvC2 "X").selected_match.isSome = true ↔
        ((scan_folder cexEnvC2 "X").status = MatchStatus.AUTO ∨
         (scan_folder cexEnvC2 "X").status = MatchStatus.MANUAL)) := by
  refine ⟨by decide, by decide, ?_⟩
  intro hiff
  have h1 : (scan_folder cexEnvC2 "X").status = MatchStatus.MANUAL := by decide
  have h2 := hiff.mpr (Or.inr h1)
  have h3 : (scan_folder cexEnvC2 "X").selected_match = none := by decide
  rw [h3] at h2
  cases h2

/-- C2 amended: for every outcome produced by `scan_folder` and every
collection entry produced by `_prepare_collection_items`, `selected_match` is
set if and only if the status is automatic; in particular a collection-typed
outcome's own `selected_match` is always empty even though its status is
manual. -/
theorem scan_selected_iff_amended (env : ScanEnv) (folderName : String) :
    ((scan_folder env folderName).selected_match.isSome = true ↔
      (scan_folder env folderName).status = MatchStatus.AUTO) ∧
    ((scan_folder env folderName).detected_type = MediaType.COLLECTION →
      (scan_folder env folderName).selected_match = none) ∧
    (∀ item ∈ (scan_folder env folderName).collection_items.getD [],
      item.selected_match.isSome = true ↔ item.status = MatchStatus.AUTO) := by
  unfold scan_folder
  split_ifs with h1 h2 h3 h4 h5 h6
  · exact ⟨by simp [doneResult], by simp [doneResult], by simp [doneResult]⟩
  · exact ⟨by simp, by simp, by simp⟩
  · refine ⟨by simp, by simp, ?_⟩
    intro item hitem
    simp only [Option.getD_some] at hitem
    unfold prepare_collection_items at hitem
    rw [List.mem_map] at hitem
    obtain ⟨v, _, hv⟩ := hitem
    subst hv
    by_cases hcond :
        (if strTruthy v.extracted_title = true
            then env.search (v.extracted_title.getD "") v.extracted_year MediaType.MOVIE
            else []).length = 1 ∧
        strTruthy v.extracted_year = true ∧
        ((if strTruthy v.extracted_title = true
            then env.search (v.extracted_title.getD "") v.extracted_year MediaType.MOVIE
            else []).head?.map (fun m => m.year)) = some (v.extracted_year.getD "")
    · have hne : (if strTruthy v.extracted_title = true
          then env.search (v.extracted_title.getD "") v.extracted_year MediaType.MOVIE
          else []) ≠ [] := by
        intro hnil
        rw [hnil] at hcond
        simp at hcond
      have hhead : (if strTruthy v.extracted_title = true
          then env.search (v.extracted_title.getD "") v.extracted_year MediaType.MOVIE
          else []).head?.isSome = true := by
        cases hl : (if strTruthy v.extracted_title = true
            then env.search (v.extracted_title.getD "") v.extracted_year MediaType.MOVIE
            else []) with
        | nil => exact absurd hl hne
        | cons a t => simp
      simp [hcond, hne, hhead]
    · simp only [if_neg hcond]
      constructor
      · intro hs
        simp at hs
      · intro hs
        by_cases hne : (if strTruthy v.extracted_title = true
            then env.search (v.extracted_title.getD "") v.extracted_year MediaType.MOVIE
            else []) ≠ []
        · rw [if_neg (by intro hc; exact hcond ⟨hc.2.1, hc.2.2⟩)] at hs
          cases hs
        · rw [if_neg (by intro hc; exact hne hc.1)] at hs
          cases hs
  · exact ⟨by simp, by simp, by simp⟩
  · exact ⟨by simp, by simp, by simp⟩
  · have hhead : (scanMs env folderName).head?.isSome = true := by
      cases hl : scanMs env folderName with
      | nil => exact absurd hl h5
      | cons a t => simp
    refine ⟨by simp [hhead], ?_, by simp⟩
    intro hc
    exact absurd hc h3
  · exact ⟨by simp, fun hc => absurd hc h3, by simp⟩

/-- The single collection entry produced by `scan_folder` under `cexEnvC2`:
zero candidates, status uncertain. -/
def cexItemC2 : CollectionItem :=
  { folder_path := none, video_path := "X/a.mkv", video_size_bytes := 2147483648,
    extracted_title := some "A", extracted_year := some "1977", match_list := [],
    selected_match := none, status := MatchStatus.UNSURE }

/-- Closed witness for C2 amended: the iff holds on the concrete collection
scan, its collection outcome has an empty selection, and the produced entry
satisfies the per-entry iff. -/
theorem scan_selected_iff_amended_witness :
    ((scan_folder cexEnvC2 "X").selected_match.isSome = true ↔
      (scan_folder cexEnvC2 "X").status = MatchStatus.AUTO) ∧
    (scan_folder cexEnvC2 "X").selected_match = none ∧
    (cexItemC2.selected_match.isSome = true ↔ cexItemC2.status = MatchStatus.AUTO) := by
  refine ⟨(scan_selected_iff_amended cexEnvC2 "X").1, ?_, ?_⟩
  · exact (scan_selected_iff_amended cexEnvC2 "X").2.1 (by decide)
  · exact (scan_selected_iff_amended cexEnvC2 "X").2.2 cexItemC2 (by decide)

/-- C4 counterexample: a collection entry (an identification unit) whose
ranked match list has zero candidates gets status uncertain, not none —
`_prepare_collection_items` only ever assigns `AUTO` or `UNSURE`. -/
theorem classification_none_cex :
    ((scan_folder cexEnvC2 "X").collection_items.getD []).map (fun it => it.match_list) =
      [[]] ∧
    ((scan_folder cexEnvC2 "X").collection_items.getD []).map (fun it => it.status) =
      [MatchStatus.UNSURE] ∧
    MatchStatus.UNSURE ≠ MatchStatus.NONE := by
  exact ⟨by decide, by decide, by decide⟩

/-- C4 amended: for a non-collection folder (with a truthy extracted title) the
ranked list classifies as stated — zero candidates → none, exactly one
candidate with a year extracted and matching → automatic with that candidate
selected, anything else → uncertain.  A collection entry is automatic exactly
when its (nonempty) list has exactly one candidate with a matching extracted
year, and otherwise — including zero candidates — is uncertain, never none. -/
theorem classification_amended (env : ScanEnv) (folderName : String)
    (hcan : canonicalShape folderName = false)
    (hvid : env.detect.2 ≠ [])
    (hcol : env.detect.1 ≠ MediaType.COLLECTION)
    (htitle : strTruthy (env.extract folderName).1 = true) :
    (scanMs env folderName = [] → (scan_folder env folderName).status = MatchStatus.NONE) ∧
    ((scanMs env folderName).length = 1 ∧ strTruthy (env.extract folderName).2 = true ∧
        ((scanMs env folderName).head?.map (fun m => m.year)) =
          some ((env.extract folderName).2.getD "") →
      (scan_folder env folderName).status = MatchStatus.AUTO ∧
      (scan_folder env folderName).selected_match = (scanMs env folderName).head?) ∧
    (scanMs env folderName ≠ [] ∧
        ¬((scanMs env folderName).length = 1 ∧ strTruthy (env.extract folderName).2 = true ∧
          ((scanMs env folderName).head?.map (fun m => m.year)) =
            some ((env.extract folderName).2.getD "")) →
      (scan_folder env folderName).status = MatchStatus.UNSURE) ∧
    (∀ (search : String → Option String → MediaType → List MediaMatch)
        (videos : List VideoFile) (item : CollectionItem),
      item ∈ prepare_collection_items search videos →
      (item.match_list = [] → item.status = MatchStatus.UNSURE) ∧
      (item.status = MatchStatus.AUTO ↔
        (item.match_list ≠ [] ∧ item.match_list.length = 1 ∧
         strTruthy item.extracted_year = true ∧
         (item.match_list.head?.map (fun m => m.year)) =
           some (item.extracted_year.getD "")))) := by
  have hnc : ¬ canonicalShape folderName = true := by simp [hcan]
  have hnt : ¬ strTruthy (env.extract folderName).1 = false := by simp [htitle]
  refine ⟨?_, ?_, ?_, ?_⟩
  · intro hms
    unfold scan_folder
    rw [if_neg hnc, if_neg hvid, if_neg hcol, if_neg hnt, if_pos hms]
  · rintro ⟨hlen, hyr, hhd⟩
    have hne : scanMs env folderName ≠ [] := by
      intro hnil
      rw [hnil] at hlen
      simp at hlen
    unfold scan_folder
    rw [if_neg hnc, if_neg hvid, if_neg hcol, if_neg hnt, if_neg hne,
      if_pos ⟨hlen, hyr, hhd⟩]
    exact ⟨rfl, rfl⟩
  · rintro ⟨hne, hncond⟩
    unfold scan_folder
    rw [if_neg hnc, if_neg hvid, if_neg hcol, if_neg hnt, if_neg hne, if_neg hncond]
  · intro search videos item hitem
    unfold prepare_collection_items at hitem
    rw [List.mem_map] at hitem
    obtain ⟨v, _, hv⟩ := hitem
    subst hv
    constructor
    · intro hms
      simp only at hms
      simp [hms]
    · by_cases hbig : (if strTruthy v.extracted_title = true
            then search (v.extracted_title.getD "") v.extracted_year MediaType.MOVIE
            else []) ≠ [] ∧
          (if strTruthy v.extracted_title = true
            then search (v.extracted_title.getD "") v.extracted_year MediaType.MOVIE
            else []).length = 1 ∧
          strTruthy v.extracted_year = true ∧
          ((if strTruthy v.extracted_title = true
            then search (v.extracted_title.getD "") v.extracted_year MediaType.MOVIE
            else []).head?.map (fun m => m.year)) = some (v.extracted_year.getD "")
      · simp only [if_pos hbig]
        simpa using hbig
      · simp only [if_neg hbig]
        constructor
        · intro hc
          cases hc
        · intro hc
          exact absurd (by simpa using hc) hbig

/-- Environment for the C4 witness with an empty search result. -/
def envC4a : ScanEnv :=
  { detect := (MediaType.MOVIE,
      [{ path := "Y/b.mkv", size_bytes := 2147483648, media_type := .MOVIE,
         extracted_title := some "B", extracted_year := some "1990" }]),
    extract := fun _ => (some "B", some "1990"),
    search := fun _ _ _ => [] }

/-- Environment for the C4 witness with exactly one year-matching candidate. -/
def envC4b : ScanEnv :=
  { detect := (MediaType.MOVIE,
      [{ path := "Y/b.mkv", size_bytes := 2147483648, media_type := .MOVIE,
         extracted_title := some "B", extracted_year := some "1990" }]),
    extract := fun _ => (some "B", some "1990"),
    search := fun _ _ _ =>
      [{ tmdb_id := 5, imdb_id := none, title := "B", original_title := "B",
         year := "1990", media_type := "movie", popularity := 1 }] }

/-- Closed witness for C4 amended: zero candidates give none, one matching
candidate gives automatic with it selected, and the concrete collection entry
with zero candidates satisfies the per-entry clause. -/
theorem classification_amended_witness :
    (scan_folder envC4a "Y").status = MatchStatus.NONE ∧
    ((scan_folder envC4b "Y").status = MatchStatus.AUTO ∧
      (scan_folder envC4b "Y").selected_match = (scanMs envC4b "Y").head?) ∧
    (cexItemC2.match_list = [] → cexItemC2.status = MatchStatus.UNSURE) := by
  refine ⟨?_, ?_, ?_⟩
  · exact (classification_amended envC4a "Y" (by decide) (by decide) (by decide)
      (by decide)).1 (by decide)
  · exact (classification_amended envC4b "Y" (by decide) (by decide) (by decide)
      (by decide)).2.1 (by decide)
  · exact ((classification_amended envC4a "Y" (by decide) (by decide) (by decide)
      (by decide)).2.2.2 (fun _ _ _ => [])
        [{ path := "X/a.mkv", size_bytes := 2147483648, media_type := .MOVIE,
           extracted_title := some "A", extracted_year := some "1977" }]
        cexItemC2 (by decide)).1

/-! ## Manual-override lookup (`_manual_lookup`)

`_manual_lookup` takes the user's override string.  For a `tt`-prefixed or
all-digits-length-≥7 input it *reassigns* `manual = 'tt' + manual` (when not
already prefixed), queries `/find/` when the result matches `^tt\d{7,8}$`, and
— crucially — the later raw-id branch tests the *reassigned* string with
`manual.isdigit()`.  The four TMDb endpoints are oracle parameters. -/

/-- One item of a `/find/` response (`movie_results` / `tv_results` entry);
`is_movie` is detected by the presence of the `title` key. -/
structure FindItem where
  id : Nat
  title : Option String := none
  name : Option String := none
  original_title : Option String := none
  original_name : Option String := none
  release_date : Option String := none
  first_air_date : Option String := none
deriving DecidableEq

/-- A `/find/{imdb_id}` response body. -/
structure FindData where
  movie_results : List FindItem := []
  tv_results : List FindItem := []
deriving DecidableEq

/-- A `/movie/{id}` or `/tv/{id}` response that contains an `id` key (the
source's `data and 'id' in data` check; a failing fetch is `none`). -/
structure DetailData where
  id : Nat
  title : Option String := none
  name : Option String := none
  original_title : Option String := none
  original_name : Option String := none
  release_date : Option String := none
  first_air_date : Option String := none
deriving DecidableEq

/-- The TMDb endpoints `_manual_lookup` can reach:
`/find/{imdb}`, `/movie/{id}`, `/tv/{id}`, `/{media}/{id}/external_ids`. -/
structure LookupOracles where
  find : String → Option FindData
  movieById : Nat → Option DetailData
  tvById : Nat → Option DetailData
  imdbOf : Nat → String → Option String

/-- `manual.startswith('tt')`. -/
def startsTT (s : String) : Bool :=
  "tt".data.isPrefixOf s.data

/-- `re.match(r'^tt\d{7,8}$', manual)`. -/
def ttPattern (s : String) : Bool :=
  match s.data with
  | 't' :: 't' :: rest =>
    rest.all Char.isDigit && (rest.length = 7 || rest.length = 8)
  | _ => false

/-- `int(manual)` for an all-ASCII-digits string. -/
def pyInt (s : String) : Nat :=
  s.data.foldl (fun acc c => acc * 10 + (c.toNat - 48)) 0

/-- The `MediaMatch` built from the first `/find/` result item. -/
def mkFindMatch (imdb : String) (item : FindItem) : MediaMatch :=
  { tmdb_id := item.id,
    imdb_id := some imdb,
    title := (if item.title.isSome then item.title else item.name).getD "",
    original_title :=
      (if item.title.isSome then item.original_title else item.original_name).getD "",
    year := ((if item.title.isSome then item.release_date else item.first_air_date).getD
      "").take 4,
    media_type := if item.title.isSome then "movie" else "tv",
    popularity := 0 }

/-- The external-id branch of `_manual_lookup`: validate `^tt\d{7,8}$`, query
`/find/`, and take the head of `movie_results + tv_results`. -/
def ttFindLookup (find : String → Option FindData) (manual : String) : Option MediaMatch :=
  if ttPattern manual then
    match find manual with
    | some data =>
      match data.movie_results ++ data.tv_results with
      | item :: _ => some (mkFindMatch manual item)
      | [] => none
    | none => none
  else none

/-- The `MediaMatch` built from a `/movie/{id}` or `/tv/{id}` detail fetch. -/
def mkDetailMatch (isMovie : Bool) (imdb : Option String) (tid : Nat)
    (d : DetailData) : MediaMatch :=
  { tmdb_id := tid,
    imdb_id := imdb,
    title := (if isMovie then d.title else d.name).getD "",
    original_title := (if isMovie then d.original_title else d.original_name).getD "",
    year := ((if isMovie then d.release_date else d.first_air_date).getD "").take 4,
    media_type := if isMovie then "movie" else "tv",
    popularity := 0 }

/-- `MediaRenamer._manual_lookup`.  Note that after the first branch the
variable `manual` may have been reassigned to `'tt' + manual`, and the raw-id
branch tests that reassigned value with `isdigit()`. -/
def manual_lookup (o : LookupOracles) (manual0 : String) : Option MediaMatch :=
  if manual0 = "" then none
  else
    match (if startsTT manual0 || (pyIsDigit manual0 && decide (7 ≤ manual0.length))
           then ttFindLookup o.find
             (if startsTT manual0 then manual0 else "tt" ++ manual0)
           else none) with
    | some m => some m
    | none =>
      if pyIsDigit (if startsTT manual0 || (pyIsDigit manual0 && decide (7 ≤ manual0.length))
          then (if startsTT manual0 then manual0 else "tt" ++ manual0) else manual0) then
        match o.movieById (pyInt (if startsTT manual0 ||
            (pyIsDigit manual0 && decide (7 ≤ manual0.length))
            then (if startsTT manual0 then manual0 else "tt" ++ manual0) else manual0)) with
        | some d =>
          some (mkDetailMatch true
            (o.imdbOf (pyInt (if startsTT manual0 ||
              (pyIsDigit manual0 && decide (7 ≤ manual0.length))
              then (if startsTT manual0 then manual0 else "tt" ++ manual0) else manual0))
              "movie")
            (pyInt (if startsTT manual0 || (pyIsDigit manual0 && decide (7 ≤ manual0.length))
              then (if startsTT manual0 then manual0 else "tt" ++ manual0) else manual0)) d)
        | none =>
          match o.tvById (pyInt (if startsTT manual0 ||
              (pyIsDigit manual0 && decide (7 ≤ manual0.length))
              then (if startsTT manual0 then manual0 else "tt" ++ manual0) else manual0)) with
          | some d =>
            some (mkDetailMatch false
              (o.imdbOf (pyInt (if startsTT manual0 ||
                (pyIsDigit manual0 && decide (7 ≤ manual0.length))
                then (if startsTT manual0 then manual0 else "tt" ++ manual0) else manual0))
                "tv")
              (pyInt (if startsTT manual0 ||
                (pyIsDigit manual0 && decide (7 ≤ manual0.length))
                then (if startsTT manual0 then manual0 else "tt" ++ manual0) else manual0)) d)
          | none => none
      else none

theorem pyIsDigit_not_startsTT {s : String} (h : pyIsDigit s = true) :
    startsTT s = false := by
  unfold pyIsDigit at h
  simp only [Bool.and_eq_true, List.all_eq_true, decide_eq_true_eq] at h
  unfold startsTT
  cases hd : s.data with
  | nil => rfl
  | cons c rest =>
    have hc : c.isDigit = true := h.2 c (by rw [hd]; exact List.mem_cons_self _ _)
    have hne : ('t' == c) = false := by
      cases hct : 't' == c
      · rfl
      · exact absurd (by rw [← eq_of_beq hct] at hc; exact hc) (by decide)
    show List.isPrefixOf ('t' :: 't' :: []) (c :: rest) = false
    simp [List.isPrefixOf, hne]

theorem pyIsDigit_tt_append (s : String) : pyIsDigit ("tt" ++ s) = false := by
  unfold pyIsDigit
  rw [String.data_append]
  show (_ && List.all ('t' :: 't' :: s.data) Char.isDigit) = false
  simp [Char.isDigit]

/-- Oracle set for the C10 counterexample: `/find/` always fails, while the
raw movie-id fetch for 1234567 would succeed. -/
def cexOracleC10 : LookupOracles :=
  { find := fun _ => none,
    movieById := fun i =>
      if i = 1234567 then
        some { id := 1234567, title := some "M", original_title := some "M",
               release_date := some "1997-01-01" }
      else none,
    tvById := fun _ => none,
    imdbOf := fun _ _ => some "tt1234567" }

/-- C10 counterexample: for the all-digits input "1234567" whose external-id
resolution yields no result, the claim says the lookup falls back to treating
the digits as a raw catalog identifier (movie first); the raw movie fetch here
would succeed, yet `_manual_lookup` returns no result — the fallback is dead
for digit inputs of length ≥ 7 because `manual` was reassigned to
`'tt1234567'`, which fails `isdigit()`. -/
theorem manual_lookup_fallback_cex :
    pyIsDigit "1234567" = true ∧ 7 ≤ "1234567".length ∧
    cexOracleC10.movieById 1234567 ≠ none ∧
    manual_lookup cexOracleC10 "1234567" = none := by
  exact ⟨by decide, by decide, by decide, by decide⟩

/-- C10 amended: an all-digits input of length ≥ 7 is interpreted *only* as an
external cross-reference identifier: the result equals the `/find/` branch
applied to the `tt`-prefixed digits (queried only when that makes 7 or 8
digits), and the raw-catalog-id endpoints are never consulted — there is no
fallback, so a failed resolution returns no result.  An input that is neither
`tt`-prefixed nor all digits returns no result without any network request. -/
theorem manual_lookup_amended (o : LookupOracles) (s : String) :
    (pyIsDigit s = true → 7 ≤ s.length →
      manual_lookup o s = ttFindLookup o.find ("tt" ++ s)) ∧
    (startsTT s = false → pyIsDigit s = false → manual_lookup o s = none) := by
  constructor
  · intro hdig hlen
    have hne : ¬ s = "" := by
      intro h0
      rw [h0] at hdig
      cases hdig
    have htt : startsTT s = false := pyIsDigit_not_startsTT hdig
    have hcond : (startsTT s || (pyIsDigit s && decide (7 ≤ s.length))) = true := by
      simp [htt, hdig, hlen]
    unfold manual_lookup
    rw [if_neg hne]
    simp only [hcond]
    simp only [htt]
    simp only [eq_self_iff_true, if_true, Bool.false_eq_true, if_false]
    cases hfind : ttFindLookup o.find ("tt" ++ s) with
    | some m => rfl
    | none =>
      simp only [pyIsDigit_tt_append, Bool.false_eq_true, if_false]
  · intro htt hdig
    by_cases hne : s = ""
    · unfold manual_lookup
      rw [if_pos hne]
    · have hcond : (startsTT s || (pyIsDigit s && decide (7 ≤ s.length))) = false := by
        simp [htt, hdig]
      unfold manual_lookup
      rw [if_neg hne]
      simp only [hcond]
      simp only [Bool.false_eq_true, if_false, hdig]

/-- Closed witness for C10 amended: the digits-only input resolves purely via
the (failing) `/find/` endpoint, and a non-id input yields nothing. -/
theorem manual_lookup_amended_witness :
    manual_lookup cexOracleC10 "1234567" = ttFindLookup cexOracleC10.find "tt1234567" ∧
    manual_lookup cexOracleC10 "The Movie" = none := by
  constructor
  · exact (manual_lookup_amended cexOracleC10 "1234567").1 (by decide) (by decide)
  · exact (manual_lookup_amended cexOracleC10 "The Movie").2 (by decide) (by decide)

end TmdbRename
